import Mathlib

/-!
Verification of the `template.py` command-line tool of the open-agent-system
repository.  The tool reads one input file, counts lines, words and characters
of its UTF-8 decoded content, and renders the result as JSON or as plain text.

Decoded text is modelled as `List Char` (one `Char` per Unicode scalar value,
exactly the code points of a decoded Python `str`).  The Python library
operations the tool calls (`str.splitlines`, `str.split`, `len`, `json.dumps`,
`argparse`) are embedded with their documented CPython semantics; the tool's
own functions (`process_file`, `output_json`, `output_text`, `main`) are
translated directly from the source.
-/

/-- Decoded text: one entry per Unicode scalar value. -/
abbrev Str := List Char

/-- Convert a Lean string literal to the `List Char` text model. -/
def str (s : String) : Str := s.toList

/-! ### Python `str.splitlines` and `str.split`

CPython's `str.splitlines` treats `\n`, `\r`, `\r\n`, `\x0b`, `\x0c`,
`\x1c`, `\x1d`, `\x1e`, `\x85`, ` `, ` ` as line boundaries and
produces no trailing empty segment for a final boundary.

CPython's `str.split()` (no argument) splits on the characters for which
`Py_UNICODE_ISSPACE` holds: the Unicode `White_Space` characters together
with the control characters `\x1c`–`\x1f`.  Runs of whitespace collapse and
no empty token is produced. -/

/-- Characters CPython `str.splitlines` recognises as line boundaries
(`\r\n` is additionally treated as a single boundary): LF, CR, VT, FF,
FS, GS, RS, NEL, LINE SEPARATOR, PARAGRAPH SEPARATOR. -/
def pyLineBreak (c : Char) : Bool :=
  let n := c.toNat
  n == 0x0A || n == 0x0D || n == 0x0B || n == 0x0C || n == 0x1C ||
  n == 0x1D || n == 0x1E || n == 0x85 || n == 0x2028 || n == 0x2029

/-- Characters CPython `str.split()` treats as whitespace
(`Py_UNICODE_ISSPACE`): the Unicode `White_Space` characters plus the
control characters U+001C-U+001F. -/
def pySpace (c : Char) : Bool :=
  let n := c.toNat
  (0x09 ≤ n && n ≤ 0x0D) || (0x1C ≤ n && n ≤ 0x1F) || n == 0x20 ||
  n == 0x85 || n == 0xA0 || n == 0x1680 || (0x2000 ≤ n && n ≤ 0x200A) ||
  n == 0x2028 || n == 0x2029 || n == 0x202F || n == 0x205F || n == 0x3000

/-- Split into lines: `p` marks a boundary character, and `\r\n` counts as a
single boundary; a trailing boundary produces no trailing empty segment. -/
def splitLinesBy (p : Char → Bool) : Str → List Str
  | [] => []
  | '\r' :: '\n' :: rest => [] :: splitLinesBy p rest
  | c :: rest =>
    if p c then [] :: splitLinesBy p rest
    else
      match splitLinesBy p rest with
      | [] => [[c]]
      | l :: ls => (c :: l) :: ls

/-- Helper for `splitWordsBy`: `acc` holds the current token, reversed. -/
def splitWordsAux (p : Char → Bool) : Str → Str → List Str
  | [], acc => if acc = [] then [] else [acc.reverse]
  | c :: rest, acc =>
    if p c then
      if acc = [] then splitWordsAux p rest []
      else acc.reverse :: splitWordsAux p rest []
    else splitWordsAux p rest (c :: acc)

/-- Split into whitespace-delimited tokens (`p` marks whitespace): runs of
whitespace collapse, no empty token is produced. -/
def splitWordsBy (p : Char → Bool) (cs : Str) : List Str :=
  splitWordsAux p cs []

/-- CPython `content.splitlines()`. -/
def pySplitlines (cs : Str) : List Str := splitLinesBy pyLineBreak cs

/-- CPython `content.split()`. -/
def pySplit (cs : Str) : List Str := splitWordsBy pySpace cs

/-! ### The analysis record and `process_file` -/

/-- The result record built by `process_file` (its six keys, in insertion
order: file, lines, words, characters, encoding, status). -/
structure AnalysisResult where
  file : Str
  lines : Nat
  words : Nat
  characters : Nat
  encoding : Str
  status : Str
deriving DecidableEq, Repr

/-- `process_file` of template.py: read the decoded content and count lines
(`content.splitlines()`), words (`content.split()`) and characters
(`len(content)`).  The file read itself is modelled in `mainRun`; here
`content` is the already decoded text. -/
def process_file (input_path : Str) (content : Str) : AnalysisResult :=
  { file := input_path
    lines := (pySplitlines content).length
    words := (pySplit content).length
    characters := content.length
    encoding := str "utf-8"
    status := str "success" }

/-! ### Decimal rendering of counts (Python `str(int)` for naturals) -/

/-- The decimal digit character for `d < 10`. -/
def digitChar (d : Nat) : Char :=
  if d = 0 then '0' else if d = 1 then '1' else if d = 2 then '2'
  else if d = 3 then '3' else if d = 4 then '4' else if d = 5 then '5'
  else if d = 6 then '6' else if d = 7 then '7' else if d = 8 then '8'
  else '9'

/-- Helper for `natRepr`: structural recursion on a fuel bound (any fuel
above `n` gives the same digits, see `natReprAux_irrel`). -/
def natReprAux : Nat → Nat → Str
  | 0, _ => []
  | fuel + 1, n =>
    if n < 10 then [digitChar n]
    else natReprAux fuel (n / 10) ++ [digitChar (n % 10)]

/-- Decimal representation of a natural number, as Python `str(n)` prints a
non-negative `int`. -/
def natRepr (n : Nat) : Str := natReprAux (n + 1) n

/-! ### `output_text`: the text renderer

`output_text` of template.py iterates over the six entries of the result
dictionary in insertion order, renders each as `key: value`, and joins the
lines with `"\n".join`. -/

/-- The six `key: value` entries, in the dictionary's insertion order. -/
def textEntries (r : AnalysisResult) : List Str :=
  [str "file: " ++ r.file,
   str "lines: " ++ natRepr r.lines,
   str "words: " ++ natRepr r.words,
   str "characters: " ++ natRepr r.characters,
   str "encoding: " ++ r.encoding,
   str "status: " ++ r.status]

/-- `output_text` of template.py. -/
def output_text (r : AnalysisResult) : Str :=
  List.intercalate ['\n'] (textEntries r)

/-! ### `output_json`: the JSON renderer

`output_json` of template.py is `json.dumps(result, indent=2,
ensure_ascii=False)`.  With `ensure_ascii=False` the CPython encoder
escapes only `\` and `"`, the shorthand control characters
`\b \f \n \r \t`, and the remaining characters below U+0020 as `\u00xx`;
everything else (non-ASCII included) is emitted literally.  `indent=2`
renders the object as `{`, newline, two-space-indented `"key": value`
entries separated by `,` + newline, newline, `}`. -/

/-- The lowercase hexadecimal digit character for `d < 16`. -/
def hexChar (d : Nat) : Char :=
  if d < 10 then digitChar d
  else if d = 10 then 'a' else if d = 11 then 'b' else if d = 12 then 'c'
  else if d = 13 then 'd' else if d = 14 then 'e' else 'f'

/-- How the CPython JSON encoder (with `ensure_ascii=False`) renders one
character inside a string literal. -/
def escapeChar (c : Char) : Str :=
  if c = '\\' then ['\\', '\\']
  else if c = '"' then ['\\', '"']
  else if c = '\x08' then ['\\', 'b']
  else if c = '\x0C' then ['\\', 'f']
  else if c = '\n' then ['\\', 'n']
  else if c = '\r' then ['\\', 'r']
  else if c = '\t' then ['\\', 't']
  else if c.toNat < 0x20 then
    ['\\', 'u', '0', '0', hexChar (c.toNat / 16), hexChar (c.toNat % 16)]
  else [c]

/-- Body of a JSON string literal. -/
def jsonEscape (s : Str) : Str := (s.map escapeChar).flatten

/-- A JSON string literal, quotes included. -/
def jsonStr (s : Str) : Str := '"' :: jsonEscape s ++ ['"']

/-- `output_json` of template.py:
`json.dumps(result, indent=2, ensure_ascii=False)`. -/
def output_json (r : AnalysisResult) : Str :=
  str "\x7b\n  \"file\": " ++ jsonStr r.file ++
  str ",\n  \"lines\": " ++ natRepr r.lines ++
  str ",\n  \"words\": " ++ natRepr r.words ++
  str ",\n  \"characters\": " ++ natRepr r.characters ++
  str ",\n  \"encoding\": " ++ jsonStr r.encoding ++
  str ",\n  \"status\": " ++ jsonStr r.status ++
  str "\n\x7d"

/-! ### A JSON reader for the rendered record

A recursive-descent parser for the JSON text the renderer produces: an
object with the six keys in order, string or non-negative-integer values,
arbitrary whitespace between tokens, full JSON string-escape handling. -/

/-- Skip JSON inter-token whitespace. -/
def skipWs : Str → Str
  | [] => []
  | c :: rest =>
    if c = ' ' || c = '\n' || c = '\t' || c = '\r' then skipWs rest
    else c :: rest

/-- Consume an expected literal prefix. -/
def expectLit : Str → Str → Option Str
  | [], cs => some cs
  | _ :: _, [] => none
  | t :: ts, c :: cs => if c = t then expectLit ts cs else none

/-- Value of one hexadecimal digit character. -/
def hexVal (c : Char) : Option Nat :=
  if 48 ≤ c.toNat ∧ c.toNat ≤ 57 then some (c.toNat - 48)
  else if 97 ≤ c.toNat ∧ c.toNat ≤ 102 then some (c.toNat - 87)
  else if 65 ≤ c.toNat ∧ c.toNat ≤ 70 then some (c.toNat - 55)
  else none

/-- Character denoted by a JSON shorthand escape `\e`. -/
def unescape (e : Char) : Option Char :=
  if e = '\\' then some '\\'
  else if e = '"' then some '"'
  else if e = '/' then some '/'
  else if e = 'b' then some '\x08'
  else if e = 'f' then some '\x0C'
  else if e = 'n' then some '\n'
  else if e = 'r' then some '\r'
  else if e = 't' then some '\t'
  else none

/-- Parse the body of a JSON string literal (after the opening quote) up to
and including the closing quote; return the decoded characters and the
remaining input. -/
def parseStringBody : Str → Option (Str × Str)
  | [] => none
  | '"' :: rest => some ([], rest)
  | '\\' :: 'u' :: h1 :: h2 :: h3 :: h4 :: rest =>
    match hexVal h1, hexVal h2, hexVal h3, hexVal h4 with
    | some a, some b, some c, some d =>
      (parseStringBody rest).map
        (fun p => (Char.ofNat (((a * 16 + b) * 16 + c) * 16 + d) :: p.1, p.2))
    | _, _, _, _ => none
  | '\\' :: e :: rest =>
    match unescape e with
    | some c => (parseStringBody rest).map (fun p => (c :: p.1, p.2))
    | none => none
  | c :: rest => (parseStringBody rest).map (fun p => (c :: p.1, p.2))

/-- Decimal digit character test. -/
def isDigitCh (c : Char) : Bool := 48 ≤ c.toNat && c.toNat ≤ 57

/-- Value of a decimal digit string. -/
def digitsVal (ds : Str) : Nat :=
  ds.foldl (fun a c => a * 10 + (c.toNat - 48)) 0

/-- Parse a non-negative decimal integer. -/
def parseNat (cs : Str) : Option (Nat × Str) :=
  if cs.takeWhile isDigitCh = [] then none
  else some (digitsVal (cs.takeWhile isDigitCh), cs.dropWhile isDigitCh)

/-- Consume `"key":` (with surrounding whitespace allowed). -/
def parseKey (key : String) (cs : Str) : Option Str := do
  let cs ← expectLit ['"'] (skipWs cs)
  let cs ← expectLit (str key) cs
  let cs ← expectLit ['"'] cs
  expectLit [':'] (skipWs cs)

/-- Parse a JSON string value. -/
def parseStrField (cs : Str) : Option (Str × Str) := do
  let cs ← expectLit ['"'] (skipWs cs)
  parseStringBody cs

/-- Parse one string-valued member `"key": "..."`. -/
def parseStrMember (key : String) (cs : Str) : Option (Str × Str) :=
  (parseKey key cs).bind parseStrField

/-- Parse one integer-valued member `"key": n`. -/
def parseNatMember (key : String) (cs : Str) : Option (Nat × Str) :=
  (parseKey key cs).bind (fun cs2 => parseNat (skipWs cs2))

/-- Consume the `,` between members. -/
def parseComma (cs : Str) : Option Str := expectLit [','] (skipWs cs)

/-- Parse a rendered `AnalysisResult` object back from JSON text. -/
def parseJsonResult (cs : Str) : Option AnalysisResult :=
  match expectLit ['\x7b'] (skipWs cs) with
  | none => none
  | some cs1 =>
  match parseStrMember "file" cs1 with
  | none => none
  | some (fileV, cs2) =>
  match (parseComma cs2).bind (parseNatMember "lines") with
  | none => none
  | some (linesV, cs3) =>
  match (parseComma cs3).bind (parseNatMember "words") with
  | none => none
  | some (wordsV, cs4) =>
  match (parseComma cs4).bind (parseNatMember "characters") with
  | none => none
  | some (charsV, cs5) =>
  match (parseComma cs5).bind (parseStrMember "encoding") with
  | none => none
  | some (encodingV, cs6) =>
  match (parseComma cs6).bind (parseStrMember "status") with
  | none => none
  | some (statusV, cs7) =>
  match expectLit ['\x7d'] (skipWs cs7) with
  | none => none
  | some cs8 =>
  if skipWs cs8 = [] then
    some ⟨fileV, linesV, wordsV, charsV, encodingV, statusV⟩
  else none

/-! ### Command line and `main`

`main` of template.py builds an `argparse` parser with one required
positional (`input_file`), options `--output` (`-o`, value), `--format`
(`-f`, choices `json`/`text`, default `json`) and `--verbose` (`-v`, flag),
plus the automatic `--help` (`-h`).  `argparse` exits the process with status 0 on a
help request and with status 2 on any argument error (missing positional,
unknown option, missing option value, invalid choice).  After parsing,
`main` validates the path, calls `process_file`, renders, and writes,
converting any exception in that block to exit code 3. -/

/-- The `--format` choices. -/
inductive Format
  | json
  | text
deriving DecidableEq, Repr

/-- The parsed argument record (`args` in `main`). -/
structure Args where
  input_file : Str
  output : Option Str
  format : Format
  verbose : Bool
deriving DecidableEq, Repr

/-- Outcome of `parser.parse_args()`: a record, or a process exit (0 for
help, 2 for an argparse error). -/
inductive ParseResult
  | ok (args : Args)
  | exited (code : Nat)
deriving DecidableEq, Repr

/-- An argument token that looks like an option (starts with `-` and has at
least one more character). -/
def isFlagLike : Str → Bool
  | '-' :: _ :: _ => true
  | _ => false

/-- One left-to-right pass over the argument tokens, accumulating the
positional, `--output`, `--format` and `--verbose` values. -/
def parseArgsLoop :
    List Str → Option Str → Option Str → Format → Bool → ParseResult
  | [], pos, out, fmt, vb =>
    match pos with
    | some p => .ok ⟨p, out, fmt, vb⟩
    | none => .exited 2
  | a :: rest, pos, out, fmt, vb =>
    if a = str "--help" || a = str "-h" then .exited 0
    else if a = str "--verbose" || a = str "-v" then
      parseArgsLoop rest pos out fmt true
    else if a = str "--output" || a = str "-o" then
      match rest with
      | v :: rest2 => parseArgsLoop rest2 pos (some v) fmt vb
      | [] => .exited 2
    else if a = str "--format" || a = str "-f" then
      match rest with
      | v :: rest2 =>
        if v = str "json" then parseArgsLoop rest2 pos out .json vb
        else if v = str "text" then parseArgsLoop rest2 pos out .text vb
        else .exited 2
      | [] => .exited 2
    else if isFlagLike a then .exited 2
    else
      match pos with
      | none => parseArgsLoop rest (some a) out fmt vb
      | some _ => .exited 2

/-- `parser.parse_args()` on the argument tokens after the program name. -/
def parse_args (argv : List Str) : ParseResult :=
  parseArgsLoop argv none none .json false

/-- Observable effects of one invocation, in order of occurrence.  Log
events go to the error stream; `writeFile`/`printStdout` are the output
artifact; `fileRead` marks the attempt to read and decode the input. -/
inductive Event
  | logDebug (msg : Str)
  | logInfo (msg : Str)
  | logError (msg : Str)
  | traceback
  | fileRead (path : Str)
  | writeFile (path : Str) (content : Str)
  | printStdout (content : Str)
deriving DecidableEq, Repr

/-- The filesystem's answers for one invocation: whether the input path
exists, whether it is a regular file, the decoded content (`none` when the
read or the UTF-8 decode raises), and whether the output write succeeds. -/
structure World where
  pathExists : Bool
  isFile : Bool
  readResult : Option Str
  writeOk : Bool
deriving DecidableEq, Repr

/-- `main` of template.py (with `sys.exit(main())` folded in): given the
debug flag from the environment, the argument tokens and the filesystem's
behavior, the final exit status and the emitted effects. -/
def mainRun (debugEnv : Bool) (argv : List Str) (w : World) :
    Nat × List Event :=
  match parse_args argv with
  | .exited c => (c, [])
  | .ok args =>
    let dbg := debugEnv || args.verbose
    if !w.pathExists then
      (2, [.logError (str "Input file not found: " ++ args.input_file)])
    else if !w.isFile then
      (1, [.logError (str "Not a file: " ++ args.input_file)])
    else
      let pre :=
        [Event.logInfo (str "Processing " ++ args.input_file ++ str "...")] ++
        (if dbg then [Event.logDebug (str "Processing file: " ++ args.input_file)]
         else []) ++
        [Event.fileRead args.input_file]
      match w.readResult with
      | none =>
        (3, pre ++ [.logError (str "Processing error")] ++
          if dbg then [.traceback] else [])
      | some content =>
        let result := process_file args.input_file content
        let pre2 :=
          pre ++ (if dbg then [Event.logDebug (str "Processing complete")]
                  else [])
        let output :=
          match args.format with
          | .json => output_json result
          | .text => output_text result
        match args.output with
        | some p =>
          if w.writeOk then
            (0, pre2 ++ [.writeFile p output,
              .logInfo (str "Output written to " ++ p)])
          else
            (3, pre2 ++ [.logError (str "Processing error")] ++
              if dbg then [.traceback] else [])
        | none => (0, pre2 ++ [.printStdout (output ++ str "\n")])

/-! ### Spec-side split definitions

The specification describes the line split as "universal newline semantics:
`\n`, `\r\n`, `\r` as separators" and the word split as "a generic
Unicode-whitespace split".  The following definitions follow those words
(Unicode `White_Space` for the word split), to be compared with the
CPython behavior embedded above. -/

/-- The separators the spec names for the line split: `\n` and `\r`
(`\r\n` counting as one separator via `splitLinesBy`). -/
def specLineBreak (c : Char) : Bool := c.toNat == 0x0A || c.toNat == 0x0D

/-- The Unicode `White_Space` characters, the delimiter set of the spec's
"generic Unicode-whitespace split". -/
def specSpace (c : Char) : Bool :=
  let n := c.toNat
  (0x09 ≤ n && n ≤ 0x0D) || n == 0x20 || n == 0x85 || n == 0xA0 ||
  n == 0x1680 || (0x2000 ≤ n && n ≤ 0x200A) || n == 0x2028 || n == 0x2029 ||
  n == 0x202F || n == 0x205F || n == 0x3000

/-- The spec's line split: `\n`, `\r\n`, `\r` separators, no trailing empty
segment. -/
def specSplitlines (cs : Str) : List Str := splitLinesBy specLineBreak cs

/-- The spec's word split: Unicode-whitespace delimited, no empty tokens. -/
def specSplit (cs : Str) : List Str := splitWordsBy specSpace cs

/-- The characters on which the CPython splits differ from the spec's
description: VT, FF, FS, GS, RS, US, NEL, LINE SEPARATOR, PARAGRAPH
SEPARATOR.  Away from these, `pyLineBreak`/`pySpace` agree with
`specLineBreak`/`specSpace`. -/
def divergentChar (c : Char) : Bool :=
  let n := c.toNat
  n == 0x0B || n == 0x0C || n == 0x1C || n == 0x1D || n == 0x1E ||
  n == 0x1F || n == 0x85 || n == 0x2028 || n == 0x2029

/-! ### Helper lemmas: the two split algorithms under predicate agreement -/

/-- Away from the divergent characters, the CPython and the spec line-break
predicates agree. -/
theorem lineBreak_agree (c : Char) (h : divergentChar c = false) :
    pyLineBreak c = specLineBreak c := by
  simp only [divergentChar, Bool.or_eq_false_iff, beq_eq_false_iff_ne, ne_eq] at h
  simp only [pyLineBreak, specLineBreak]
  rw [Bool.eq_iff_iff]
  simp only [Bool.or_eq_true, beq_iff_eq]
  omega

/-- Away from the divergent characters, the CPython and the spec whitespace
predicates agree. -/
theorem space_agree (c : Char) (h : divergentChar c = false) :
    pySpace c = specSpace c := by
  simp only [divergentChar, Bool.or_eq_false_iff, beq_eq_false_iff_ne, ne_eq] at h
  simp only [pySpace, specSpace]
  rw [Bool.eq_iff_iff]
  simp only [Bool.or_eq_true, Bool.and_eq_true, beq_iff_eq, decide_eq_true_eq]
  omega

/-- `splitLinesBy` only looks at the predicate on the characters of its
input. -/
theorem splitLinesBy_congr (p q : Char → Bool) (cs : Str)
    (h : ∀ c ∈ cs, p c = q c) : splitLinesBy p cs = splitLinesBy q cs := by
  induction cs using splitLinesBy.induct p with
  | case1 => rfl
  | case2 rest ih =>
    simp only [splitLinesBy]
    rw [ih (fun c hc => h c (by simp [hc]))]
  | case3 c rest hne hpc ih =>
    rw [splitLinesBy.eq_3 p c rest hne, splitLinesBy.eq_3 q c rest hne,
      ← h c (List.mem_cons_self c rest),
      ih (fun d hd => h d (List.mem_cons_of_mem c hd))]
  | case4 c rest hne hpc hm ih =>
    rw [splitLinesBy.eq_3 p c rest hne, splitLinesBy.eq_3 q c rest hne,
      ← h c (List.mem_cons_self c rest),
      ih (fun d hd => h d (List.mem_cons_of_mem c hd))]
  | case5 c rest hne hpc l ls hm ih =>
    rw [splitLinesBy.eq_3 p c rest hne, splitLinesBy.eq_3 q c rest hne,
      ← h c (List.mem_cons_self c rest),
      ih (fun d hd => h d (List.mem_cons_of_mem c hd))]

/-- `splitWordsAux` only looks at the predicate on the characters of its
input. -/
theorem splitWordsAux_congr (p q : Char → Bool) :
    ∀ (cs : Str) (acc : Str), (∀ c ∈ cs, p c = q c) →
      splitWordsAux p cs acc = splitWordsAux q cs acc := by
  intro cs
  induction cs with
  | nil => intro acc _; rfl
  | cons c rest ih =>
    intro acc h
    have hc : p c = q c := h c (by simp)
    have htail : ∀ d ∈ rest, p d = q d := fun d hd => h d (by simp [hd])
    simp only [splitWordsAux, ← hc]
    by_cases hpc : p c = true
    · simp only [hpc, if_true]
      by_cases hacc : acc = [] <;> simp [hacc, ih _ htail]
    · simp only [Bool.not_eq_true] at hpc
      simp [hpc, ih _ htail]

/-! ### Helper lemmas: decimal digits -/

/-- `natReprAux` does not depend on the fuel once the fuel exceeds the
number. -/
theorem natReprAux_irrel :
    ∀ f1 n f2 : Nat, n < f1 → n < f2 → natReprAux f1 n = natReprAux f2 n := by
  intro f1
  induction f1 with
  | zero => intro n f2 h1 _; omega
  | succ g ihg =>
    intro n f2 h1 h2
    cases f2 with
    | zero => omega
    | succ h =>
      simp only [natReprAux]
      by_cases hn : n < 10
      · simp [hn]
      · simp only [hn, if_false]
        rw [ihg (n / 10) h (by omega) (by omega)]

/-- The defining recurrence of `natRepr`. -/
theorem natRepr_eq (n : Nat) :
    natRepr n =
      if n < 10 then [digitChar n]
      else natRepr (n / 10) ++ [digitChar (n % 10)] := by
  by_cases hn : n < 10
  · simp [natRepr, natReprAux, hn]
  · have h1 : natRepr n = natReprAux n (n / 10) ++ [digitChar (n % 10)] := by
      simp [natRepr, natReprAux, hn]
    rw [h1, natReprAux_irrel n (n / 10) (n / 10 + 1) (by omega) (by omega)]
    simp [hn, natRepr]

/-- Digit characters pass the decimal digit test. -/
theorem isDigitCh_digitChar (d : Nat) (h : d < 10) :
    isDigitCh (digitChar d) = true := by
  revert d; decide

/-- Value of a digit character. -/
theorem toNat_digitChar (d : Nat) (h : d < 10) :
    (digitChar d).toNat - 48 = d := by
  revert d; decide

/-- A decimal representation is never empty. -/
theorem natRepr_ne_nil (n : Nat) : natRepr n ≠ [] := by
  rw [natRepr_eq]
  by_cases hn : n < 10 <;> simp [hn]

/-- Every character of a decimal representation is a digit. -/
theorem natRepr_digits (n : Nat) : ∀ c ∈ natRepr n, isDigitCh c = true := by
  induction n using Nat.strong_induction_on with
  | _ n ih =>
    rw [natRepr_eq]
    by_cases hn : n < 10
    · simp only [hn, if_true, List.mem_singleton]
      intro c hc
      subst hc
      exact isDigitCh_digitChar n hn
    · simp only [hn, if_false, List.mem_append, List.mem_singleton]
      rintro c (hc | hc)
      · exact ih (n / 10) (by omega) c hc
      · subst hc
        exact isDigitCh_digitChar (n % 10) (by omega)

/-- Appending one digit multiplies the value by ten. -/
theorem digitsVal_append_singleton (xs : Str) (c : Char) :
    digitsVal (xs ++ [c]) = digitsVal xs * 10 + (c.toNat - 48) := by
  simp [digitsVal, List.foldl_append]

/-- Reading the decimal representation of `n` gives back `n`. -/
theorem digitsVal_natRepr (n : Nat) : digitsVal (natRepr n) = n := by
  induction n using Nat.strong_induction_on with
  | _ n ih =>
    rw [natRepr_eq]
    by_cases hn : n < 10
    · simp only [hn, if_true]
      simp [digitsVal, toNat_digitChar n hn]
    · simp only [hn, if_false, digitsVal_append_singleton]
      rw [ih (n / 10) (by omega), toNat_digitChar (n % 10) (by omega)]
      omega

/-- Newlines are not digits, so never occur in a decimal representation. -/
theorem newline_not_mem_natRepr (n : Nat) : '\n' ∉ natRepr n := by
  intro hmem
  have := natRepr_digits n '\n' hmem
  simp [isDigitCh] at this

/-- `takeWhile` passes over a prefix on which the predicate holds. -/
theorem takeWhile_append_all (p : Char → Bool) :
    ∀ l1 l2 : Str, (∀ a ∈ l1, p a = true) →
      (l1 ++ l2).takeWhile p = l1 ++ l2.takeWhile p := by
  intro l1
  induction l1 with
  | nil => simp
  | cons a l ih =>
    intro l2 h
    simp only [List.cons_append, List.takeWhile_cons, h a (by simp)]
    simp [ih l2 (fun b hb => h b (by simp [hb]))]

/-- `dropWhile` drops a prefix on which the predicate holds. -/
theorem dropWhile_append_all (p : Char → Bool) :
    ∀ l1 l2 : Str, (∀ a ∈ l1, p a = true) →
      (l1 ++ l2).dropWhile p = l2.dropWhile p := by
  intro l1
  induction l1 with
  | nil => simp
  | cons a l ih =>
    intro l2 h
    simp only [List.cons_append, List.dropWhile_cons, h a (by simp)]
    simp [ih l2 (fun b hb => h b (by simp [hb]))]

/-- Parsing a rendered decimal number followed by a non-digit returns the
number and the rest. -/
theorem parseNat_natRepr (n : Nat) (c : Char) (X : Str)
    (hc : isDigitCh c = false) :
    parseNat (natRepr n ++ c :: X) = some (n, c :: X) := by
  have ht : (natRepr n ++ c :: X).takeWhile isDigitCh = natRepr n := by
    rw [takeWhile_append_all _ _ _ (natRepr_digits n)]
    simp [List.takeWhile_cons, hc]
  have hd : (natRepr n ++ c :: X).dropWhile isDigitCh = c :: X := by
    rw [dropWhile_append_all _ _ _ (natRepr_digits n)]
    simp [List.dropWhile_cons, hc]
  simp [parseNat, ht, hd, natRepr_ne_nil n, digitsVal_natRepr]

/-- Inter-token whitespace skipping stops at a decimal representation. -/
theorem skipWs_natRepr (n : Nat) (X : Str) :
    skipWs (natRepr n ++ X) = natRepr n ++ X := by
  rcases he : natRepr n with _ | ⟨d, ds⟩
  · exact absurd he (natRepr_ne_nil n)
  · have hd : isDigitCh d = true := natRepr_digits n d (by rw [he]; simp)
    simp only [isDigitCh, Bool.and_eq_true, decide_eq_true_eq] at hd
    have h1 : d ≠ ' ' := by intro hh; rw [hh] at hd; simp at hd
    have h2 : d ≠ '\n' := by intro hh; rw [hh] at hd; simp at hd
    have h3 : d ≠ '\t' := by intro hh; rw [hh] at hd; simp at hd
    have h4 : d ≠ '\r' := by intro hh; rw [hh] at hd; simp at hd
    simp [skipWs, h1, h2, h3, h4]

/-! ### Helper lemmas: JSON string escaping round trip -/

/-- `jsonEscape` distributes over `cons`. -/
theorem jsonEscape_cons (c : Char) (s : Str) :
    jsonEscape (c :: s) = escapeChar c ++ jsonEscape s := by
  simp [jsonEscape]

/-- Parsing an escaped string body followed by the closing quote returns
the original characters and the rest of the input. -/
theorem parseStringBody_escape (s : Str) :
    ∀ X, parseStringBody (jsonEscape s ++ '"' :: X) = some (s, X) := by
  induction s with
  | nil => intro X; simp [jsonEscape, parseStringBody]
  | cons c s ih =>
    intro X
    rw [jsonEscape_cons, List.append_assoc]
    by_cases h1 : c = '\\'
    · subst h1; simp [escapeChar, parseStringBody, unescape, ih]
    by_cases h2 : c = '"'
    · subst h2; simp [escapeChar, parseStringBody, unescape, ih]
    by_cases h3 : c = '\x08'
    · subst h3; simp [escapeChar, parseStringBody, unescape, ih]
    by_cases h4 : c = '\x0C'
    · subst h4; simp [escapeChar, parseStringBody, unescape, ih]
    by_cases h5 : c = '\n'
    · subst h5; simp [escapeChar, parseStringBody, unescape, ih]
    by_cases h6 : c = '\r'
    · subst h6; simp [escapeChar, parseStringBody, unescape, ih]
    by_cases h7 : c = '\t'
    · subst h7; simp [escapeChar, parseStringBody, unescape, ih]
    by_cases h8 : c.toNat < 0x20
    · have hesc : escapeChar c =
          ['\\', 'u', '0', '0', hexChar (c.toNat / 16), hexChar (c.toNat % 16)] := by
        simp [escapeChar, h1, h2, h3, h4, h5, h6, h7, h8]
      have hhi : c.toNat / 16 < 16 := by omega
      have hlo : c.toNat % 16 < 16 := by omega
      have e1 : hexVal (hexChar (c.toNat / 16)) = some (c.toNat / 16) := by
        generalize c.toNat / 16 = hi at hhi ⊢; revert hhi; revert hi; decide
      have e2 : hexVal (hexChar (c.toNat % 16)) = some (c.toNat % 16) := by
        generalize c.toNat % 16 = lo at hlo ⊢; revert hlo; revert lo; decide
      have e0 : hexVal '0' = some 0 := by decide
      have hch : Char.ofNat (c.toNat / 16 * 16 + c.toNat % 16) = c := by
        have hv : c.toNat / 16 * 16 + c.toNat % 16 = c.toNat := by omega
        rw [hv, Char.ofNat_toNat]
      rw [hesc]
      simp only [List.cons_append, List.nil_append]
      simp [parseStringBody, e0, e1, e2, hch, ih]
    · have hesc : escapeChar c = [c] := by
        simp [escapeChar, h1, h2, h3, h4, h5, h6, h7, h8]
      rw [hesc]
      simp only [List.cons_append, List.nil_append]
      simp [parseStringBody, h1, h2, ih]

/-! ### The claims -/

/-- C1, counterexample: on the content `"a\x1Cb"` (U+001C is a CPython
line boundary and CPython whitespace, but neither a spec separator nor
Unicode `White_Space`), the analyzer's line and word counts are 2 while
the spec's splits give 1, so the claimed equalities fail. -/
theorem c1_counterexample :
    ¬((process_file (str "f.txt") ['a', '\x1C', 'b']).lines =
        (specSplitlines ['a', '\x1C', 'b']).length ∧
      (process_file (str "f.txt") ['a', '\x1C', 'b']).words =
        (specSplit ['a', '\x1C', 'b']).length ∧
      (process_file (str "f.txt") ['a', '\x1C', 'b']).characters =
        (['a', '\x1C', 'b'] : Str).length) := by
  decide

/-- C1 (amended): for every content containing none of the characters
U+000B, U+000C, U+001C, U+001D, U+001E, U+001F, U+0085, U+2028, U+2029,
the analyzer's `lines` equals the number of segments of the spec's
universal-newline split (`\n`, `\r\n`, `\r`), its `words` equals the
number of tokens of a Unicode-whitespace split with no empty tokens, and
its `characters` equals the number of decoded Unicode scalar values. -/
theorem c1_counts (p content : Str)
    (h : ∀ c ∈ content, divergentChar c = false) :
    (process_file p content).lines = (specSplitlines content).length ∧
    (process_file p content).words = (specSplit content).length ∧
    (process_file p content).characters = content.length := by
  refine ⟨?_, ?_, rfl⟩
  · show (pySplitlines content).length = (specSplitlines content).length
    rw [pySplitlines, specSplitlines,
      splitLinesBy_congr pyLineBreak specLineBreak content
        (fun c hc => lineBreak_agree c (h c hc))]
  · show (pySplit content).length = (specSplit content).length
    rw [pySplit, specSplit, splitWordsBy, splitWordsBy,
      splitWordsAux_congr pySpace specSpace content []
        (fun c hc => space_agree c (h c hc))]

/-- C1, witness: the amended claim applied to the content `"a b\ncd\n"`. -/
theorem c1_witness :
    (process_file (str "t.txt") (str "a b\ncd\n")).lines =
      (specSplitlines (str "a b\ncd\n")).length ∧
    (process_file (str "t.txt") (str "a b\ncd\n")).words =
      (specSplit (str "a b\ncd\n")).length ∧
    (process_file (str "t.txt") (str "a b\ncd\n")).characters =
      (str "a b\ncd\n").length :=
  c1_counts (str "t.txt") (str "a b\ncd\n") (by decide)

/-- C2: on the content `"a b\ncd\n"` the analyzer returns lines 2,
words 3, characters 7 and status `"success"` (for any input path). -/
theorem c2_example (p : Str) :
    process_file p (str "a b\ncd\n") =
      ⟨p, 2, 3, 7, str "utf-8", str "success"⟩ := rfl

/-- C3: rendering any `AnalysisResult` as JSON (`json.dumps` with
`indent=2, ensure_ascii=False`) and parsing the text back yields the
original record, field for field. -/
theorem c3_json_roundtrip (r : AnalysisResult) :
    parseJsonResult (output_json r) = some r := by
  obtain ⟨f, l, w, ch, e, s⟩ := r
  have hcm : isDigitCh ',' = false := by decide
  simp only [output_json, jsonStr, str]
  simp [parseJsonResult, hcm, parseStrMember, parseNatMember, parseComma,
    parseKey, parseStrField, expectLit, skipWs, str, parseStringBody_escape,
    parseNat_natRepr, skipWs_natRepr, List.append_assoc]

/-- C4, counterexample: an `AnalysisResult` whose `file` value contains a
newline (a legal byte in a POSIX path) renders to 7 newline-separated
segments in text mode, not 6. -/
theorem c4_counterexample :
    ((output_text ⟨str "a\nb", 1, 1, 3, str "utf-8", str "success"⟩).splitOn
      '\n').length ≠ 6 := by
  decide

/-- C4 (amended): for every `AnalysisResult` whose string-valued fields
contain no newline, the text-mode serialization splits on newlines into
exactly the six `key: value` lines, in the fixed field order file, lines,
words, characters, encoding, status. -/
theorem c4_text_lines (r : AnalysisResult) (hf : '\n' ∉ r.file)
    (he : '\n' ∉ r.encoding) (hs : '\n' ∉ r.status) :
    (output_text r).splitOn '\n' =
      [str "file: " ++ r.file, str "lines: " ++ natRepr r.lines,
       str "words: " ++ natRepr r.words,
       str "characters: " ++ natRepr r.characters,
       str "encoding: " ++ r.encoding, str "status: " ++ r.status] ∧
    ((output_text r).splitOn '\n').length = 6 := by
  have hsplit : (output_text r).splitOn '\n' = textEntries r := by
    apply List.splitOn_intercalate
    · intro l hl
      simp only [textEntries, List.mem_cons, List.not_mem_nil, or_false] at hl
      rcases hl with h | h | h | h | h | h <;> subst h <;>
        simp [List.mem_append, hf, he, hs, newline_not_mem_natRepr] <;> decide
    · simp [textEntries]
  refine ⟨by rw [hsplit]; rfl, by rw [hsplit]; rfl⟩

/-- C4, witness: the amended claim applied to a concrete record. -/
theorem c4_witness :
    (output_text ⟨str "f.txt", 12, 34, 56, str "utf-8",
        str "success"⟩).splitOn '\n' =
      [str "file: " ++ str "f.txt", str "lines: " ++ natRepr 12,
       str "words: " ++ natRepr 34, str "characters: " ++ natRepr 56,
       str "encoding: " ++ str "utf-8", str "status: " ++ str "success"] ∧
    ((output_text ⟨str "f.txt", 12, 34, 56, str "utf-8",
        str "success"⟩).splitOn '\n').length = 6 :=
  c4_text_lines ⟨str "f.txt", 12, 34, 56, str "utf-8", str "success"⟩
    (by decide) (by decide) (by decide)

/-- C5: on `--format xml` the process exits with status 2 (the exit code
`argparse` uses for every argument error) and performs no effect — in
particular no file read — for any filesystem behavior.  The claim and the
module docstring say invalid arguments exit with code 1, which is what
the explicit `return` statements of `main` use, but the `argparse` error
path exits with 2 before `main` regains control. -/
theorem c5_invalid_format (w : World) :
    mainRun false [str "data.txt", str "--format", str "xml"] w = (2, []) :=
  rfl

/-- C6: when the input path does not exist, the process logs an error,
exits with status 2, and writes no output artifact, neither to a file nor
to standard output. -/
theorem c6_missing_input (dbg : Bool) (argv : List Str) (args : Args)
    (w : World) (hp : parse_args argv = .ok args)
    (he : w.pathExists = false) :
    (mainRun dbg argv w).1 = 2 ∧
    (∃ m, Event.logError m ∈ (mainRun dbg argv w).2) ∧
    (∀ pth c, Event.writeFile pth c ∉ (mainRun dbg argv w).2) ∧
    (∀ c, Event.printStdout c ∉ (mainRun dbg argv w).2) := by
  simp [mainRun, hp, he]

/-- C6, witness: a concrete invocation on a missing path. -/
theorem c6_witness :
    (mainRun false [str "missing.txt"] ⟨false, true, none, true⟩).1 = 2 ∧
    (∃ m, Event.logError m ∈
      (mainRun false [str "missing.txt"] ⟨false, true, none, true⟩).2) ∧
    (∀ pth c, Event.writeFile pth c ∉
      (mainRun false [str "missing.txt"] ⟨false, true, none, true⟩).2) ∧
    (∀ c, Event.printStdout c ∉
      (mainRun false [str "missing.txt"] ⟨false, true, none, true⟩).2) :=
  c6_missing_input false [str "missing.txt"]
    ⟨str "missing.txt", none, Format.json, false⟩
    ⟨false, true, none, true⟩ rfl rfl

/-- C7: when the input path exists but is not a regular file, the process
logs an error and exits with status 1. -/
theorem c7_not_a_file (dbg : Bool) (argv : List Str) (args : Args)
    (w : World) (hp : parse_args argv = .ok args)
    (he : w.pathExists = true) (hf : w.isFile = false) :
    (mainRun dbg argv w).1 = 1 ∧
    (∃ m, Event.logError m ∈ (mainRun dbg argv w).2) := by
  simp [mainRun, hp, he, hf]

/-- C7, witness: a concrete invocation on a directory. -/
theorem c7_witness :
    (mainRun false [str "somedir"] ⟨true, false, none, true⟩).1 = 1 ∧
    (∃ m, Event.logError m ∈
      (mainRun false [str "somedir"] ⟨true, false, none, true⟩).2) :=
  c7_not_a_file false [str "somedir"]
    ⟨str "somedir", none, Format.json, false⟩
    ⟨true, false, none, true⟩ rfl rfl rfl

/-- C8: when reading or decoding the input file raises, the process logs
an error and exits with status 3, and a full diagnostic trace is emitted
exactly when debug mode (environment toggle or `--verbose`) is active. -/
theorem c8_read_failure (dbg : Bool) (argv : List Str) (args : Args)
    (w : World) (hp : parse_args argv = .ok args)
    (he : w.pathExists = true) (hf : w.isFile = true)
    (hr : w.readResult = none) :
    (mainRun dbg argv w).1 = 3 ∧
    (∃ m, Event.logError m ∈ (mainRun dbg argv w).2) ∧
    (Event.traceback ∈ (mainRun dbg argv w).2 ↔
      (dbg || args.verbose) = true) := by
  cases hd : dbg || args.verbose <;>
    simp [mainRun, hp, he, hf, hr, hd]

/-- C8, witness: a concrete failing read with `--verbose` set. -/
theorem c8_witness :
    (mainRun false [str "bad.bin", str "--verbose"]
      ⟨true, true, none, true⟩).1 = 3 ∧
    (∃ m, Event.logError m ∈
      (mainRun false [str "bad.bin", str "--verbose"]
        ⟨true, true, none, true⟩).2) ∧
    (Event.traceback ∈
      (mainRun false [str "bad.bin", str "--verbose"]
        ⟨true, true, none, true⟩).2 ↔ (false || true) = true) :=
  c8_read_failure false [str "bad.bin", str "--verbose"]
    ⟨str "bad.bin", none, Format.json, true⟩
    ⟨true, true, none, true⟩ rfl rfl rfl rfl

/-- C9: on an empty file the analyzer returns lines 0, words 0,
characters 0, status `"success"`, and a full invocation exits with
status 0. -/
theorem c9_empty :
    (∀ p : Str, process_file p [] = ⟨p, 0, 0, 0, str "utf-8", str "success"⟩) ∧
    (mainRun false [str "empty.txt"] ⟨true, true, some [], true⟩).1 = 0 :=
  ⟨fun _ => rfl, rfl⟩

/-- C10: when the write of the rendered output to the configured output
path raises after a successful analysis, the top-level handler logs a
processing error and the process exits with status 3. -/
theorem c10_write_failure (dbg : Bool) (argv : List Str) (args : Args)
    (w : World) (content : Str) (pth : Str)
    (hp : parse_args argv = .ok args) (he : w.pathExists = true)
    (hf : w.isFile = true) (hr : w.readResult = some content)
    (ho : args.output = some pth) (hw : w.writeOk = false) :
    (mainRun dbg argv w).1 = 3 ∧
    (∃ m, Event.logError m ∈ (mainRun dbg argv w).2) := by
  simp [mainRun, hp, he, hf, hr, ho, hw]

/-- C10, witness: a concrete failing write. -/
theorem c10_witness :
    (mainRun false [str "in.txt", str "--output", str "out.json"]
      ⟨true, true, some (str "hi"), false⟩).1 = 3 ∧
    (∃ m, Event.logError m ∈
      (mainRun false [str "in.txt", str "--output", str "out.json"]
        ⟨true, true, some (str "hi"), false⟩).2) :=
  c10_write_failure false [str "in.txt", str "--output", str "out.json"]
    ⟨str "in.txt", some (str "out.json"), Format.json, false⟩
    ⟨true, true, some (str "hi"), false⟩ (str "hi") (str "out.json")
    rfl rfl rfl rfl rfl rfl
